import Mathlib

/-!
Shallow embedding of the Listonic Home Assistant integration
(`custom_components/listonic/api.py` and `coordinator.py`).

Modelling conventions:
* Wire payloads (JSON objects) are association lists of `String × JValue`,
  where `JValue` covers the JSON value shapes the decoded fields can take
  (null, booleans, integers, strings).  Python `dict.get` with a default is
  `dictGetD`; Python truthiness is `jTruthy`; Python `int(...)` is the
  partial function `pyInt` (`none` models a raised `ValueError`/`TypeError`).
* The network is a deterministic script: a list of `NetEvent`s consumed by
  successive `session.request` calls.  `NetEvent.connError` models
  `aiohttp.ClientError` being raised by `session.request`;
  `NetEvent.resp` models a received HTTP response (status, `Retry-After`
  header, body text).  The `Retry-After` header is modelled abstractly by
  the shapes the Python code distinguishes: absent, empty string (falsy),
  a non-empty string that `float()` rejects, or a value that parses to a
  rational number.
* Seconds are rationals.  Only the explicit backoff sleeps of `_request`
  are tracked (the 100 ms rate-limit spacing and the concurrency semaphore
  are concurrency mechanisms outside the claims; the spec notion of "backoff"
  totals refer to the `asyncio.sleep(backoff)` calls).
* `_handle_auth_failure` performs its own network traffic against the auth
  endpoint; its observable effect on a resource operation is its boolean
  return value, so recovery outcomes are supplied as a list of booleans
  consumed one per `_handle_auth_failure()` invocation.
* `_ensure_authenticated` is a no-op when a token is held; the operations
  are modelled in the steady state where a (possibly expired) token exists.
* Exceptions are values: `OpError` mirrors the exception classes
  `ListonicAuthError`, `ListonicApiError` and `ListonicRateLimitError`
  (the latter a subclass of `ListonicApiError` in the source, kept as a
  distinct most-derived class `ErrClass.rateLimitError` here).
-/

namespace Listonic

/-- `_MAX_AUTH_RETRIES = 1` (api.py line 28). -/
def MAX_AUTH_RETRIES : Nat := 1

/-- `_MAX_BACKOFF_RETRIES = 3` (api.py line 33). -/
def MAX_BACKOFF_RETRIES : Nat := 3

/-- `_INITIAL_BACKOFF_SECONDS = 1.0` (api.py line 34). -/
def INITIAL_BACKOFF_SECONDS : ℚ := 1

/-- `_MAX_BACKOFF_SECONDS = 30.0` (api.py line 35). -/
def MAX_BACKOFF_SECONDS : ℚ := 30

/-- JSON values as they occur in the decoded wire fields. -/
inductive JValue
  | jnull
  | jbool (b : Bool)
  | jint (n : Int)
  | jstr (s : String)
deriving DecidableEq

/-- A JSON object (Python dict): association list, first binding wins. -/
abbrev Dict := List (String × JValue)

/-- Python `d.get(key)`. -/
def dictGet : Dict → String → Option JValue
  | [], _ => none
  | (k, v) :: rest, key => if k = key then some v else dictGet rest key

/-- Python `d.get(key, dflt)`. -/
def dictGetD (d : Dict) (key : String) (dflt : JValue) : JValue :=
  (dictGet d key).getD dflt

/-- Python truthiness of a JSON value (`bool(x)`). -/
def jTruthy : JValue → Bool
  | .jnull => false
  | .jbool b => b
  | .jint n => n != 0
  | .jstr s => s != ""

/-- Digit run of a decimal literal, accumulating its value; `none` when a
non-digit character occurs. -/
def parseDigitsAux : List Char → Nat → Option Nat
  | [], acc => some acc
  | c :: cs, acc =>
      if c.isDigit then parseDigitsAux cs (acc * 10 + (c.toNat - 48)) else none

/-- Python `int(s)` on a string: an optional sign followed by at least one
decimal digit (the CPython tolerance for surrounding whitespace and interior
underscores is outside the wire formats concerned here); `none` models the
raised `ValueError`. -/
def pyIntOfString (s : String) : Option Int :=
  match s.data with
  | [] => none
  | '-' :: [] => none
  | '-' :: cs => (parseDigitsAux cs 0).map (fun n => -(n : Int))
  | '+' :: [] => none
  | '+' :: cs => (parseDigitsAux cs 0).map (fun n => (n : Int))
  | cs => (parseDigitsAux cs 0).map (fun n => (n : Int))

/-- Python `int(x)`: identity on ints, 1/0 on booleans, decimal parsing on
strings, and a raised exception (`none`) on `None`. -/
def pyInt : JValue → Option Int
  | .jint n => some n
  | .jbool b => some (if b then 1 else 0)
  | .jstr s => pyIntOfString s
  | .jnull => none

/-- api.py line 72:
`item_id = data.get("IdAsNumber") or int(data.get("Id", data.get("id", 0)))`.
Python `a or b` keeps `a` when `a` is truthy; `none` models `int(...)`
raising. -/
def decodeItemId (d : Dict) : Option JValue :=
  let fallback : Option JValue :=
    (pyInt (dictGetD d "Id" (dictGetD d "id" (.jint 0)))).map JValue.jint
  match dictGet d "IdAsNumber" with
  | some v => if jTruthy v then some v else fallback
  | none => fallback

/-- api.py lines 74-75:
`checked = data.get("Checked", data.get("isChecked", 0))`;
`is_checked = bool(checked) if isinstance(checked, int) else checked`.
In Python `bool` is a subclass of `int`, so booleans take the `bool(...)`
branch (which is the identity on them); any other value passes through
unchanged. -/
def decodeChecked (d : Dict) : JValue :=
  match dictGetD d "Checked" (dictGetD d "isChecked" (.jint 0)) with
  | .jint n => .jbool (n != 0)
  | .jbool b => .jbool b
  | v => v

/-- The `ListonicItem` dataclass (api.py lines 50-61).  `price` is a
rational standing in for the Python float. -/
structure ListonicItem where
  id : Int
  name : String
  is_checked : Bool
  quantity : Option String := none
  unit : Option String := none
  price : Option ℚ := none
  description : Option String := none
  category_id : Option Int := none
deriving DecidableEq

/-- The `Retry-After` header as the Python code distinguishes it:
absent, present but empty (falsy, skipped), present but rejected by
`float()` (`ValueError`, swallowed), or parsed to a number. -/
inductive RAHeader
  | absent
  | falsy
  | invalid (s : String)
  | value (q : ℚ)
deriving DecidableEq

/-- The numeric content of a `Retry-After` header, if any. -/
def numericRA : RAHeader → Option ℚ
  | .value q => some q
  | _ => none

/-- A received HTTP response: status, `Retry-After` header, body text. -/
structure HttpResp where
  status : Nat
  retryAfter : RAHeader
  body : String
deriving DecidableEq

/-- One `session.request` outcome in the scripted network. -/
inductive NetEvent
  | resp (r : HttpResp)
  | connError (msg : String)
deriving DecidableEq

/-- What a `_request` invocation produces for its caller. -/
inductive ReqResult
  | ok (r : HttpResp)
  | clientError (msg : String)
  | rateLimit
  | noScript
deriving DecidableEq

/-- Observable outcome of one `_request` invocation: result, number of
`session.request` calls issued, backoff sleeps performed (in order), and
the unconsumed tail of the network script.  `noScript` is a model
artefact (script exhausted), not a code behaviour. -/
structure ReqOutcome where
  result : ReqResult
  attempts : Nat
  sleeps : List ℚ
  rest : List NetEvent
deriving DecidableEq

/-- api.py lines 246-249 / 268-271:
`min(_INITIAL_BACKOFF_SECONDS * (2**attempt), _MAX_BACKOFF_SECONDS)`;
the Python `2**attempt` is an integer power, hence the natural-number
power cast into ℚ. -/
def retriableDelay (attempt : Nat) : ℚ :=
  min (INITIAL_BACKOFF_SECONDS * ((2 ^ attempt : ℕ) : ℚ)) MAX_BACKOFF_SECONDS

/-- api.py lines 250-255: a numeric `Retry-After` header raises the
computed backoff to `max(backoff, float(retry_after))`; an absent, empty
or unparsable header leaves it unchanged. -/
def delay429 (attempt : Nat) : RAHeader → ℚ
  | .value q => max (retriableDelay attempt) q
  | _ => retriableDelay attempt

/-- The retry loop of `_request` (api.py lines 220-288), recursing on the
remaining attempt budget (`fuel`, starting at `_MAX_BACKOFF_RETRIES`);
the attempt index of the current iteration is
`MAX_BACKOFF_RETRIES - fuel`.  `made` accumulates issued
`session.request` calls.  A 429 response sleeps `delay429` and retries;
a 5xx response sleeps `retriableDelay` and retries; any other response is
returned to the caller; `aiohttp.ClientError` from `session.request`
propagates immediately; an exhausted budget raises
`ListonicRateLimitError`. -/
def requestAux : List NetEvent → Nat → Nat → ReqOutcome
  | events, 0, made => ⟨.rateLimit, made, [], events⟩
  | [], _ + 1, made => ⟨.noScript, made, [], []⟩
  | .connError m :: rest, _ + 1, made => ⟨.clientError m, made + 1, [], rest⟩
  | .resp r :: rest, fuel + 1, made =>
      let attempt := MAX_BACKOFF_RETRIES - (fuel + 1)
      if r.status = 429 then
        let out := requestAux rest fuel (made + 1)
        ⟨out.result, out.attempts, delay429 attempt r.retryAfter :: out.sleeps, out.rest⟩
      else if 500 ≤ r.status ∧ r.status < 600 then
        let out := requestAux rest fuel (made + 1)
        ⟨out.result, out.attempts, retriableDelay attempt :: out.sleeps, out.rest⟩
      else
        ⟨.ok r, made + 1, [], rest⟩

/-- `_request` over a network script (api.py lines 189-288). -/
def request (events : List NetEvent) : ReqOutcome :=
  requestAux events MAX_BACKOFF_RETRIES 0

/-- The most-derived exception class of an error surfaced by the client. -/
inductive ErrClass
  | authError
  | apiError
  | rateLimitError
deriving DecidableEq

/-- The exception raised by an operation: `ListonicAuthError`,
`ListonicApiError`, or `ListonicRateLimitError`, with its message. -/
inductive OpError
  | auth (msg : String)
  | api (msg : String)
  | rateLimited (msg : String)
deriving DecidableEq

/-- The most-derived class of an `OpError`. -/
def OpError.cls : OpError → ErrClass
  | .auth _ => .authError
  | .api _ => .apiError
  | .rateLimited _ => .rateLimitError

/-- Result of a resource operation: a returned value, a raised exception,
or the model artefact of an exhausted network script. -/
inductive OpResult (α : Type)
  | ok (a : α)
  | err (e : OpError)
  | stuck
deriving DecidableEq

/-- Whether an operation result is a successful return. -/
def OpResult.isOk {α : Type} : OpResult α → Bool
  | .ok _ => true
  | _ => false

/-- Observable outcome of a resource operation: its result, the number of
`_request` invocations it made for the resource URL (`reqCalls`), the
total number of `session.request` calls (`httpAttempts`), the backoff
sleeps, and the unconsumed script/recovery tails. -/
structure OpOutcome (α : Type) where
  result : OpResult α
  reqCalls : Nat
  httpAttempts : Nat
  sleeps : List ℚ
  restEvents : List NetEvent
  restRecovers : List Bool
deriving DecidableEq

/-- The shared resource-operation template (api.py lines 439-468 for
`get_lists`; every operation repeats it verbatim):
`for attempt in range(_MAX_AUTH_RETRIES + 1)` issue `_request`; on 401
invoke `_handle_auth_failure()` (its boolean outcome consumed from
`recovers`) and either retry once or raise `ListonicAuthError`; on any
other non-success status raise `ListonicApiError` with `failMsg`; on a
success status return `onSuccess`; `aiohttp.ClientError` becomes
`ListonicApiError("Connection error: ...")`; `ListonicRateLimitError`
from `_request` propagates uncaught.  `fuel` is the remaining loop
budget, so the attempt index is `(MAX_AUTH_RETRIES + 1) - fuel`. -/
def opLoopAux {α : Type} (isSuccess : Nat → Bool) (failMsg : Nat → String → String)
    (onSuccess : HttpResp → α) :
    Nat → List NetEvent → List Bool → Nat → Nat → List ℚ → OpOutcome α
  | 0, evs, recs, rc, ha, sl =>
      ⟨.err (.auth "Authentication failed after retry"), rc, ha, sl, evs, recs⟩
  | fuel + 1, evs, recs, rc, ha, sl =>
      let r := request evs
      let rc := rc + 1
      let ha := ha + r.attempts
      let sl := sl ++ r.sleeps
      match r.result with
      | .noScript => ⟨.stuck, rc, ha, sl, r.rest, recs⟩
      | .clientError m =>
          ⟨.err (.api ("Connection error: " ++ m)), rc, ha, sl, r.rest, recs⟩
      | .rateLimit =>
          ⟨.err (.rateLimited "Request failed after 3 retries"), rc, ha, sl, r.rest, recs⟩
      | .ok resp =>
          if resp.status = 401 then
            if (MAX_AUTH_RETRIES + 1) - (fuel + 1) < MAX_AUTH_RETRIES then
              match recs with
              | [] => ⟨.stuck, rc, ha, sl, r.rest, []⟩
              | rec :: recs2 =>
                  if rec then
                    opLoopAux isSuccess failMsg onSuccess fuel r.rest recs2 rc ha sl
                  else
                    ⟨.err (.auth "Authentication failed after retry"), rc, ha, sl, r.rest, recs2⟩
            else
              ⟨.err (.auth "Authentication failed after retry"), rc, ha, sl, r.rest, recs⟩
          else if isSuccess resp.status then
            ⟨.ok (onSuccess resp), rc, ha, sl, r.rest, recs⟩
          else
            ⟨.err (.api (failMsg resp.status resp.body)), rc, ha, sl, r.rest, recs⟩

/-- `get_lists` (api.py lines 428-468): success status 200; the JSON list
decoding on success is outside the claims, so the raw body is returned. -/
def get_lists (evs : List NetEvent) (recs : List Bool) : OpOutcome String :=
  opLoopAux (fun st => st == 200)
    (fun st body => "Failed to get lists: " ++ toString st ++ " - " ++ body)
    (fun r => r.body)
    (MAX_AUTH_RETRIES + 1) evs recs 0 0 []

/-- The keyword arguments of `update_item` (api.py lines 588-598);
`none` is the Python default `None` ("field not being updated"). -/
structure UpdateArgs where
  is_checked : Option Bool := none
  name : Option String := none
  quantity : Option String := none
  unit : Option String := none
  description : Option String := none
deriving DecidableEq

/-- The sparse PATCH payload of `update_item` (api.py lines 624-635):
only fields the caller provided are included, in PascalCase, with the
checked flag encoded as 1/0. -/
def updatePayload (a : UpdateArgs) : Dict :=
  (match a.is_checked with
    | some b => [("Checked", JValue.jint (if b then 1 else 0))]
    | none => []) ++
  (match a.name with
    | some n => [("Name", JValue.jstr n)]
    | none => []) ++
  (match a.quantity with
    | some q => [("Amount", JValue.jstr q)]
    | none => []) ++
  (match a.unit with
    | some u => [("Unit", JValue.jstr u)]
    | none => []) ++
  (match a.description with
    | some d => [("Description", JValue.jstr d)]
    | none => [])

/-- The return value `update_item` constructs on a 200 response
(api.py lines 658-692): the API returns an empty body, so the item is
reconstructed locally.  With a supplied `current_item`, each provided
field replaces the prior one and every other field (including `price`
and `category_id`) keeps its prior value; without one, a partial item is
built from the provided fields alone, with dataclass defaults for the
rest. -/
def updateItemReturn (item_id : Int) (a : UpdateArgs) : Option ListonicItem → ListonicItem
  | some cur =>
      { id := item_id
        name := a.name.getD cur.name
        is_checked := a.is_checked.getD cur.is_checked
        quantity := match a.quantity with | some q => some q | none => cur.quantity
        unit := match a.unit with | some u => some u | none => cur.unit
        price := cur.price
        description := match a.description with | some d => some d | none => cur.description
        category_id := cur.category_id }
  | none =>
      { id := item_id
        name := a.name.getD ""
        is_checked := a.is_checked.getD false
        quantity := a.quantity
        unit := a.unit
        price := none
        description := a.description
        category_id := none }

/-- `update_item` (api.py lines 588-697): the shared template with
success status 200 and the local reconstruction of the returned item. -/
def update_item (list_id item_id : Int) (a : UpdateArgs)
    (current_item : Option ListonicItem)
    (evs : List NetEvent) (recs : List Bool) : OpOutcome ListonicItem :=
  let _ := list_id
  opLoopAux (fun st => st == 200)
    (fun st body => "Failed to update item: " ++ toString st ++ " - " ++ body)
    (fun _ => updateItemReturn item_id a current_item)
    (MAX_AUTH_RETRIES + 1) evs recs 0 0 []

/-- `check_item` (api.py lines 699-701):
`update_item(list_id, item_id, is_checked=True)` with no prior state. -/
def check_item (list_id item_id : Int)
    (evs : List NetEvent) (recs : List Bool) : OpOutcome ListonicItem :=
  update_item list_id item_id { is_checked := some true } none evs recs

/-- `uncheck_item` (api.py lines 703-705):
`update_item(list_id, item_id, is_checked=False)` with no prior state. -/
def uncheck_item (list_id item_id : Int)
    (evs : List NetEvent) (recs : List Bool) : OpOutcome ListonicItem :=
  update_item list_id item_id { is_checked := some false } none evs recs

/-- `delete_item` (api.py lines 707-739): the shared template with
success status 200, returning `True`. -/
def delete_item (list_id item_id : Int)
    (evs : List NetEvent) (recs : List Bool) : OpOutcome Bool :=
  let _ := list_id
  let _ := item_id
  opLoopAux (fun st => st == 200)
    (fun st body => "Failed to delete item: " ++ toString st ++ " - " ++ body)
    (fun _ => true)
    (MAX_AUTH_RETRIES + 1) evs recs 0 0 []

/-- Observable calls a coordinator method makes on the client and on the
coordinator refresh machinery. -/
inductive CoordCall
  | callAddItem (list_id : Int) (name : String)
  | callUpdateItem (list_id item_id : Int)
  | callCheckItem (list_id item_id : Int)
  | callUncheckItem (list_id item_id : Int)
  | callDeleteItem (list_id item_id : Int)
  | callRefresh
deriving DecidableEq

/-- Whether a coordinator call is a `client.delete_item` call. -/
def CoordCall.isDeleteCall : CoordCall → Bool
  | .callDeleteItem _ _ => true
  | _ => false

/-- The shape shared by every non-batch coordinator mutation method
(coordinator.py lines 62-122): `await self.client.X(...)` then
`await self.async_request_refresh()`.  If the client call raises, the
exception propagates and the refresh is never reached. -/
def coordMutate {α : Type} (clientResult : OpResult α) (call : CoordCall) :
    OpResult Unit × List CoordCall :=
  match clientResult with
  | .ok _ => (.ok (), [call, .callRefresh])
  | .err e => (.err e, [call])
  | .stuck => (.stuck, [call])

/-- `async_add_item` (coordinator.py lines 62-71), parameterised by the
outcome of the underlying `client.add_item` call. -/
def async_add_item (r : OpResult ListonicItem) (list_id : Int) (name : String) :
    OpResult Unit × List CoordCall :=
  coordMutate r (.callAddItem list_id name)

/-- `async_update_item` (coordinator.py lines 73-107). -/
def async_update_item (r : OpResult ListonicItem) (list_id item_id : Int) :
    OpResult Unit × List CoordCall :=
  coordMutate r (.callUpdateItem list_id item_id)

/-- `async_check_item` (coordinator.py lines 109-112). -/
def async_check_item (r : OpResult ListonicItem) (list_id item_id : Int) :
    OpResult Unit × List CoordCall :=
  coordMutate r (.callCheckItem list_id item_id)

/-- `async_uncheck_item` (coordinator.py lines 114-117). -/
def async_uncheck_item (r : OpResult ListonicItem) (list_id item_id : Int) :
    OpResult Unit × List CoordCall :=
  coordMutate r (.callUncheckItem list_id item_id)

/-- `async_delete_item` (coordinator.py lines 119-122). -/
def async_delete_item (r : OpResult Bool) (list_id item_id : Int) :
    OpResult Unit × List CoordCall :=
  coordMutate r (.callDeleteItem list_id item_id)

/-- `async_delete_items` (coordinator.py lines 124-130):
`for item_id in item_ids: await self.client.delete_item(...)` then a
single `await self.async_request_refresh()`.  `del_` gives the outcome
of each `client.delete_item` call; a raised exception aborts the loop
and propagates, skipping the refresh. -/
def async_delete_items (del_ : Int → OpResult Bool) (list_id : Int) :
    List Int → OpResult Unit × List CoordCall
  | [] => (.ok (), [.callRefresh])
  | i :: rest =>
      match del_ i with
      | .ok _ =>
          let out := async_delete_items del_ list_id rest
          (out.1, .callDeleteItem list_id i :: out.2)
      | .err e => (.err e, [.callDeleteItem list_id i])
      | .stuck => (.stuck, [.callDeleteItem list_id i])

/-- A response that `_request` retries without a `Retry-After` override:
any 5xx, or a 429 whose `Retry-After` header carries no numeric value. -/
def retriableNoOverride (r : HttpResp) : Prop :=
  (500 ≤ r.status ∧ r.status < 600) ∨ (r.status = 429 ∧ numericRA r.retryAfter = none)

/-! ## Helper lemmas -/

lemma retriableDelay_zero : retriableDelay 0 = 1 := by
  norm_num [retriableDelay, INITIAL_BACKOFF_SECONDS, MAX_BACKOFF_SECONDS, min_def]

lemma retriableDelay_one : retriableDelay 1 = 2 := by
  norm_num [retriableDelay, INITIAL_BACKOFF_SECONDS, MAX_BACKOFF_SECONDS, min_def]

lemma retriableDelay_two : retriableDelay 2 = 4 := by
  norm_num [retriableDelay, INITIAL_BACKOFF_SECONDS, MAX_BACKOFF_SECONDS, min_def]

lemma delay429_no_override (a : Nat) (ra : RAHeader) (h : numericRA ra = none) :
    delay429 a ra = retriableDelay a := by
  cases ra <;> simp_all [delay429, numericRA]

/-- One `_request` iteration on a retriable response: sleep the computed
delay, then continue on the rest of the script. -/
lemma requestAux_retriable (r : HttpResp) (evs : List NetEvent) (fuel made : Nat)
    (h : retriableNoOverride r) :
    requestAux (.resp r :: evs) (fuel + 1) made
      = { result := (requestAux evs fuel (made + 1)).result,
          attempts := (requestAux evs fuel (made + 1)).attempts,
          sleeps := retriableDelay (MAX_BACKOFF_RETRIES - (fuel + 1))
              :: (requestAux evs fuel (made + 1)).sleeps,
          rest := (requestAux evs fuel (made + 1)).rest } := by
  rcases h with h5 | ⟨h429, hra⟩
  · have hne : ¬ r.status = 429 := by omega
    simp only [requestAux, if_neg hne, if_pos h5]
  · simp only [requestAux, if_pos h429, delay429_no_override _ _ hra]

/-- On its final attempt budget, the operation loop issues exactly one
more `_request` (the 401-retry branch is unreachable there). -/
lemma opLoopAux_reqCalls_fuel_one {α : Type} (isS : Nat → Bool)
    (fm : Nat → String → String) (onS : HttpResp → α)
    (evs : List NetEvent) (recs : List Bool) (rc ha : Nat) (sl : List ℚ) :
    (opLoopAux isS fm onS 1 evs recs rc ha sl).reqCalls = rc + 1 := by
  show (opLoopAux isS fm onS (Nat.succ 0) evs recs rc ha sl).reqCalls = rc + 1
  simp only [opLoopAux, MAX_AUTH_RETRIES]
  cases hr : (request evs).result with
  | ok resp =>
      simp only [hr]
      split_ifs with h401 hlt
      · exfalso; omega
      · rfl
      · rfl
      · rfl
  | clientError m => simp only [hr]
  | rateLimit => simp only [hr]
  | noScript => simp only [hr]

/-- The operation loop issues at most `fuel` `_request` calls beyond the
accumulated count. -/
lemma opLoopAux_reqCalls_le {α : Type} (isS : Nat → Bool)
    (fm : Nat → String → String) (onS : HttpResp → α) (fuel : Nat)
    (evs : List NetEvent) (recs : List Bool) (rc ha : Nat) (sl : List ℚ) :
    (opLoopAux isS fm onS fuel evs recs rc ha sl).reqCalls ≤ rc + fuel := by
  induction fuel generalizing evs recs rc ha sl with
  | zero => simp [opLoopAux]
  | succ n ih =>
      simp only [opLoopAux]
      cases hr : (request evs).result with
      | ok resp =>
          simp only [hr]
          cases recs with
          | nil =>
              split_ifs with h401 hlt
              · show rc + 1 ≤ rc + (n + 1); omega
              · show rc + 1 ≤ rc + (n + 1); omega
              · show rc + 1 ≤ rc + (n + 1); omega
              · show rc + 1 ≤ rc + (n + 1); omega
          | cons rcv recs2 =>
              cases rcv with
              | true =>
                  split_ifs with h401 hlt
                  · exact (ih _ _ _ _ _).trans (by omega)
                  · show rc + 1 ≤ rc + (n + 1); omega
                  · show rc + 1 ≤ rc + (n + 1); omega
                  · show rc + 1 ≤ rc + (n + 1); omega
              | false =>
                  split_ifs with h401 hlt
                  · show rc + 1 ≤ rc + (n + 1); omega
                  · show rc + 1 ≤ rc + (n + 1); omega
                  · show rc + 1 ≤ rc + (n + 1); omega
                  · show rc + 1 ≤ rc + (n + 1); omega
      | clientError m =>
          simp only [hr]
          show rc + 1 ≤ rc + (n + 1); omega
      | rateLimit =>
          simp only [hr]
          show rc + 1 ≤ rc + (n + 1); omega
      | noScript =>
          simp only [hr]
          show rc + 1 ≤ rc + (n + 1); omega

/-- The last element of a list extended by one element. -/
lemma getLast_concat_eq {α : Type} (l : List α) (a : α) :
    (l ++ [a]).getLast? = some a := by
  rw [List.getLast?_append_cons]
  rfl

/-! ## Claim theorems -/

/-- C3: for every 429 response carrying a numeric Retry-After header, the
wait before the next attempt is the maximum of the computed exponential
backoff and the Retry-After value; in particular for the sequence
[429 with Retry-After: 2, then 200] the wait before the successful
attempt is exactly max(1s, 2s) = 2s ≥ 2s, overriding the computed 1s
backoff. -/
theorem c3_retry_after_override :
    (∀ (q : ℚ) (tail : List NetEvent),
        (request (.resp ⟨429, .value q, ""⟩ :: tail)).sleeps.head?
          = some (max (retriableDelay 0) q))
    ∧ request [.resp ⟨429, .value 2, ""⟩, .resp ⟨200, .absent, "[]"⟩]
        = { result := .ok ⟨200, .absent, "[]"⟩, attempts := 2, sleeps := [2], rest := [] }
    ∧ retriableDelay 0 = 1
    ∧ max (retriableDelay 0) (2 : ℚ) = 2
    ∧ (1 : ℚ) < 2 := by
  refine ⟨fun q tail => rfl, ?_, retriableDelay_zero, ?_, by norm_num⟩
  · simp [request, requestAux, MAX_BACKOFF_RETRIES, delay429, retriableDelay_zero]
  · rw [retriableDelay_zero]; norm_num [max_def]

/-- C4 counterexample: the wire value `Checked = 2` (an integer other
than 0 and 1) is silently truthiness-coerced to `True`, exactly like
`Checked = 1`, refuting the claim that no silent truthiness coercion of
a non-0/1 integer happens. -/
theorem c4_checked_truthiness_counterexample :
    decodeChecked [("Checked", .jint 2)] = .jbool true
    ∧ decodeChecked [("Checked", .jint 2)] = decodeChecked [("Checked", .jint 1)] := by
  exact ⟨rfl, rfl⟩

/-- C4 (amended): decoding the checked flag passes a boolean source value
through unchanged, maps integer 1 to True and 0 to False and defaults to
unchecked when the field is absent; however any integer is coerced with
Python `bool(...)` truthiness, so every nonzero integer (not only 1)
decodes to True. -/
theorem c4_checked_decode_amended (b : Bool) (n : Int) (d : Dict) :
    decodeChecked (("Checked", .jbool b) :: d) = .jbool b
    ∧ decodeChecked (("Checked", .jint n) :: d) = .jbool (n != 0)
    ∧ decodeChecked [("Checked", .jint 1)] = .jbool true
    ∧ decodeChecked [("Checked", .jint 0)] = .jbool false
    ∧ decodeChecked [("isChecked", .jint 1)] = .jbool true
    ∧ decodeChecked [] = .jbool false := by
  refine ⟨?_, ?_, rfl, rfl, rfl, rfl⟩
  · simp [decodeChecked, dictGetD, dictGet]
  · simp [decodeChecked, dictGetD, dictGet]

/-- C5 counterexample: with `IdAsNumber` present but equal to 0 (falsy),
the decoder falls through to the string `Id` field and returns 7 instead
of the present value 0, refuting "the decoded item id is the value of
IdAsNumber whenever that field is present". -/
theorem c5_id_falsy_counterexample :
    dictGet [("IdAsNumber", JValue.jint 0), ("Id", JValue.jstr "7")] "IdAsNumber"
      = some (JValue.jint 0)
    ∧ decodeItemId [("IdAsNumber", JValue.jint 0), ("Id", JValue.jstr "7")]
      = some (JValue.jint 7)
    ∧ JValue.jint 7 ≠ JValue.jint 0 := by
  refine ⟨rfl, rfl, by decide⟩

/-- C5 (amended): the decoded item id is the value of `IdAsNumber`
whenever that field is present AND truthy (in particular nonzero);
otherwise the string id field (`Id`, falling back to `id`) parsed as an
integer (a non-numeric string raises); otherwise 0. -/
theorem c5_id_decode_amended (v : JValue) (d : Dict) (hv : jTruthy v = true) :
    decodeItemId (("IdAsNumber", v) :: d) = some v
    ∧ decodeItemId [("Id", .jstr "42")] = some (.jint 42)
    ∧ decodeItemId [("id", .jstr "42")] = some (.jint 42)
    ∧ decodeItemId [] = some (.jint 0)
    ∧ decodeItemId [("IdAsNumber", .jint 0), ("Id", .jstr "42")] = some (.jint 42)
    ∧ decodeItemId [("Id", .jstr "x")] = none := by
  refine ⟨?_, rfl, rfl, rfl, rfl, rfl⟩
  simp [decodeItemId, dictGet, hv]

/-- C5 witness: the amended theorem applied at the concrete truthy
numeric id 5. -/
theorem c5_id_decode_witness :
    jTruthy (JValue.jint 5) = true
    ∧ decodeItemId [("IdAsNumber", JValue.jint 5)] = some (JValue.jint 5) :=
  ⟨by decide, (c5_id_decode_amended (JValue.jint 5) [] (by decide)).1⟩

/-- C9: for every coordinator mutation method, if the underlying client
operation raises, the error propagates unchanged as the result of the method,
the trace contains only the failing client call, and no refresh is
triggered; in particular a failed add_item never triggers a refresh, and
a batch delete whose first delete fails stops without refreshing. -/
theorem c9_mutation_error_propagation (e : OpError) (lid iid : Int) (nm : String) :
    async_add_item (.err e) lid nm = (.err e, [.callAddItem lid nm])
    ∧ CoordCall.callRefresh ∉ (async_add_item (.err e) lid nm).2
    ∧ async_update_item (.err e) lid iid = (.err e, [.callUpdateItem lid iid])
    ∧ CoordCall.callRefresh ∉ (async_update_item (.err e) lid iid).2
    ∧ async_check_item (.err e) lid iid = (.err e, [.callCheckItem lid iid])
    ∧ CoordCall.callRefresh ∉ (async_check_item (.err e) lid iid).2
    ∧ async_uncheck_item (.err e) lid iid = (.err e, [.callUncheckItem lid iid])
    ∧ CoordCall.callRefresh ∉ (async_uncheck_item (.err e) lid iid).2
    ∧ async_delete_item (.err e) lid iid = (.err e, [.callDeleteItem lid iid])
    ∧ CoordCall.callRefresh ∉ (async_delete_item (.err e) lid iid).2
    ∧ ∀ ids : List Int,
        async_delete_items (fun _ => .err e) lid (iid :: ids)
          = (.err e, [.callDeleteItem lid iid]) := by
  refine ⟨rfl, ?_, rfl, ?_, rfl, ?_, rfl, ?_, rfl, ?_, fun ids => rfl⟩
  all_goals simp [async_add_item, async_update_item, async_check_item,
    async_uncheck_item, async_delete_item, coordMutate]

/-- C10: every successful check_item or uncheck_item call (which never
supplies prior state) returns the best-effort partial item: the requested
id, is_checked True (check) or False (uncheck), empty name, and all of
quantity, unit, price, description and category_id unset. -/
theorem c10_best_effort_item (lid iid : Int) (ra : RAHeader) (body : String)
    (recs : List Bool) :
    (check_item lid iid [.resp ⟨200, ra, body⟩] recs).result
      = .ok { id := iid, name := "", is_checked := true, quantity := none,
              unit := none, price := none, description := none, category_id := none }
    ∧ (uncheck_item lid iid [.resp ⟨200, ra, body⟩] recs).result
      = .ok { id := iid, name := "", is_checked := false, quantity := none,
              unit := none, price := none, description := none, category_id := none } :=
  ⟨rfl, rfl⟩

/-- C1 counterexample: a transport-level connection failure in get_lists
surfaces as `ListonicApiError` ("Connection error: ..."), the very same
exception class as an HTTP-status failure (here a 404) — the code defines
no distinct Connection error kind, refuting "never the same kind as an
HTTP-status (generic API) error". -/
theorem c1_connection_error_counterexample :
    (get_lists [.connError "Cannot connect to host"] []).result
      = .err (.api "Connection error: Cannot connect to host")
    ∧ (get_lists [.resp ⟨404, .absent, "not found"⟩] []).result
      = .err (.api "Failed to get lists: 404 - not found")
    ∧ OpError.cls (.api "Connection error: Cannot connect to host")
      = OpError.cls (.api "Failed to get lists: 404 - not found") :=
  ⟨rfl, rfl, rfl⟩

/-- C1 (amended): every transport-level connectivity failure during a
Resource Operation is surfaced as the generic API error kind
(`ListonicApiError`) with message prefixed "Connection error: ", the same
class as HTTP-status errors and distinguished from them only by message
text; it is never surfaced as an Auth or RateLimit error. -/
theorem c1_connection_error_amended (m : String) (evs2 : List NetEvent)
    (recs : List Bool) (ra : RAHeader) (body : String) :
    (get_lists (.connError m :: evs2) recs).result
      = .err (.api ("Connection error: " ++ m))
    ∧ (get_lists [.resp ⟨401, ra, body⟩, .connError m] (true :: recs)).result
      = .err (.api ("Connection error: " ++ m))
    ∧ (update_item 1 2 {} none (.connError m :: evs2) recs).result
      = .err (.api ("Connection error: " ++ m))
    ∧ (delete_item 1 2 (.connError m :: evs2) recs).result
      = .err (.api ("Connection error: " ++ m))
    ∧ (OpError.api ("Connection error: " ++ m)).cls = .apiError
    ∧ ∀ s : String,
        (OpError.api s).cls ≠ .authError ∧ (OpError.api s).cls ≠ .rateLimitError := by
  refine ⟨rfl, rfl, rfl, rfl, rfl, fun s => ⟨?_, ?_⟩⟩ <;> simp [OpError.cls]

/-- C2 counterexample: three consecutive 5xx responses make exactly 3
attempts and fail with the RateLimit error kind, but the total backoff
slept is 1s + 2s + 4s = 7s, not the claimed 1s + 2s: the code also sleeps
the third computed backoff (4s) after the final failed attempt, before
raising. -/
theorem c2_backoff_total_counterexample :
    request [.resp ⟨500, .absent, ""⟩, .resp ⟨502, .absent, ""⟩, .resp ⟨503, .absent, ""⟩]
      = { result := .rateLimit, attempts := 3, sleeps := [1, 2, 4], rest := [] }
    ∧ ([(1 : ℚ), 2, 4].sum = 7)
    ∧ ((7 : ℚ) ≠ 1 + 2)
    ∧ (OpError.rateLimited "Request failed after 3 retries").cls
        ≠ (OpError.api "x").cls := by
  refine ⟨?_, by norm_num, by norm_num, by decide⟩
  simp [request, requestAux, MAX_BACKOFF_RETRIES, retriableDelay_zero,
    retriableDelay_one, retriableDelay_two]

/-- C2 (amended): for every request whose response sequence is three
consecutive 5xx (or 429 without a numeric Retry-After override)
responses, no 4th attempt is issued and the call fails with the RateLimit
error kind, with backoff sleeps of exactly 1s, 2s and 4s (each computed
delay capped at 30s) — a backoff sleep also happens after the final
failed attempt, so the total slept is 7s rather than 3s. -/
theorem c2_retries_exhausted_amended (r1 r2 r3 : HttpResp) (tail : List NetEvent)
    (h1 : retriableNoOverride r1) (h2 : retriableNoOverride r2)
    (h3 : retriableNoOverride r3) :
    request (.resp r1 :: .resp r2 :: .resp r3 :: tail)
      = { result := .rateLimit, attempts := 3, sleeps := [1, 2, 4], rest := tail } := by
  have e1 : requestAux (.resp r1 :: .resp r2 :: .resp r3 :: tail) 3 0
      = { result := (requestAux (.resp r2 :: .resp r3 :: tail) 2 1).result,
          attempts := (requestAux (.resp r2 :: .resp r3 :: tail) 2 1).attempts,
          sleeps := retriableDelay 0 :: (requestAux (.resp r2 :: .resp r3 :: tail) 2 1).sleeps,
          rest := (requestAux (.resp r2 :: .resp r3 :: tail) 2 1).rest } := by
    simpa [MAX_BACKOFF_RETRIES] using
      requestAux_retriable r1 (.resp r2 :: .resp r3 :: tail) 2 0 h1
  have e2 : requestAux (.resp r2 :: .resp r3 :: tail) 2 1
      = { result := (requestAux (.resp r3 :: tail) 1 2).result,
          attempts := (requestAux (.resp r3 :: tail) 1 2).attempts,
          sleeps := retriableDelay 1 :: (requestAux (.resp r3 :: tail) 1 2).sleeps,
          rest := (requestAux (.resp r3 :: tail) 1 2).rest } := by
    simpa [MAX_BACKOFF_RETRIES] using
      requestAux_retriable r2 (.resp r3 :: tail) 1 1 h2
  have e3 : requestAux (.resp r3 :: tail) 1 2
      = { result := (requestAux tail 0 3).result,
          attempts := (requestAux tail 0 3).attempts,
          sleeps := retriableDelay 2 :: (requestAux tail 0 3).sleeps,
          rest := (requestAux tail 0 3).rest } := by
    simpa [MAX_BACKOFF_RETRIES] using requestAux_retriable r3 tail 0 2 h3
  have e4 : requestAux tail 0 3 = ⟨.rateLimit, 3, [], tail⟩ := by
    simp only [requestAux]
  show requestAux (.resp r1 :: .resp r2 :: .resp r3 :: tail) 3 0 = _
  rw [e1, e2, e3, e4]
  simp [retriableDelay_zero, retriableDelay_one, retriableDelay_two]

/-- C2 witness: the amended theorem applied to the concrete sequence
[500, 503, 429-without-Retry-After]. -/
theorem c2_retries_exhausted_witness :
    retriableNoOverride ⟨500, .absent, ""⟩
    ∧ retriableNoOverride ⟨503, .absent, ""⟩
    ∧ retriableNoOverride ⟨429, .absent, ""⟩
    ∧ request [.resp ⟨500, .absent, ""⟩, .resp ⟨503, .absent, ""⟩, .resp ⟨429, .absent, ""⟩]
        = { result := .rateLimit, attempts := 3, sleeps := [1, 2, 4], rest := [] } := by
  have p1 : retriableNoOverride ⟨500, .absent, ""⟩ := Or.inl (by norm_num)
  have p2 : retriableNoOverride ⟨503, .absent, ""⟩ := Or.inl (by norm_num)
  have p3 : retriableNoOverride ⟨429, .absent, ""⟩ := Or.inr ⟨rfl, rfl⟩
  exact ⟨p1, p2, p3, c2_retries_exhausted_amended _ _ _ _ p1 p2 p3⟩

/-- C6: a 401 followed by successful recovery leads to exactly one
retried request (2 `_request` calls in total); a 401 followed by failed
recovery surfaces an Auth error after a single request; and the number of
`_request` calls an operation makes is hard-bounded by original + 1 = 2
for every script and recovery behaviour. -/
theorem c6_auth_retry_once :
    (∀ (ra : RAHeader) (body : String) (e : NetEvent) (recs : List Bool),
        (get_lists [.resp ⟨401, ra, body⟩, e] (true :: recs)).reqCalls = 2)
    ∧ (∀ (ra : RAHeader) (body : String) (recs : List Bool),
        get_lists [.resp ⟨401, ra, body⟩] (false :: recs)
          = ⟨.err (.auth "Authentication failed after retry"), 1, 1, [], [], recs⟩)
    ∧ (∀ (evs : List NetEvent) (recs : List Bool),
        (get_lists evs recs).reqCalls ≤ 2) := by
  refine ⟨?_, fun ra body recs => rfl, ?_⟩
  · intro ra body e recs
    show (opLoopAux (fun st => st == 200)
        (fun st body => "Failed to get lists: " ++ toString st ++ " - " ++ body)
        (fun r => r.body) 1 [e] recs 1 1 []).reqCalls = 2
    exact opLoopAux_reqCalls_fuel_one _ _ _ _ _ _ _ _
  · intro evs recs
    show (opLoopAux (fun st => st == 200)
        (fun st body => "Failed to get lists: " ++ toString st ++ " - " ++ body)
        (fun r => r.body) (MAX_AUTH_RETRIES + 1) evs recs 0 0 []).reqCalls ≤ 2
    simpa using opLoopAux_reqCalls_le _ _ _ (MAX_AUTH_RETRIES + 1) evs recs 0 0 []

/-- C7: a batch deletion of n item ids (all deletions succeeding) issues
exactly n delete calls and exactly 1 refresh call, with the refresh
strictly after all deletes (it is the final call), never one refresh per
item. -/
theorem c7_batch_delete (del_ : Int → OpResult Bool) (lid : Int) (ids : List Int)
    (h : ∀ i ∈ ids, (del_ i).isOk = true) :
    (async_delete_items del_ lid ids).2
      = ids.map (fun i => CoordCall.callDeleteItem lid i) ++ [CoordCall.callRefresh]
    ∧ ((async_delete_items del_ lid ids).2.filter CoordCall.isDeleteCall).length
        = ids.length
    ∧ (async_delete_items del_ lid ids).2.count CoordCall.callRefresh = 1
    ∧ (async_delete_items del_ lid ids).2.getLast? = some CoordCall.callRefresh := by
  have htr : (async_delete_items del_ lid ids).2
      = ids.map (fun i => CoordCall.callDeleteItem lid i) ++ [CoordCall.callRefresh] := by
    induction ids with
    | nil => rfl
    | cons i rest ih =>
        have hi : (del_ i).isOk = true := h i (by simp)
        have hrest : ∀ j ∈ rest, (del_ j).isOk = true := fun j hj => h j (by simp [hj])
        cases hdel : del_ i with
        | ok b => simp [async_delete_items, hdel, ih hrest]
        | err e => rw [hdel] at hi; simp [OpResult.isOk] at hi
        | stuck => rw [hdel] at hi; simp [OpResult.isOk] at hi
  refine ⟨htr, ?_, ?_, ?_⟩
  · rw [htr, List.filter_append, List.length_append,
      List.filter_eq_self.mpr (by simp [CoordCall.isDeleteCall])]
    simp [CoordCall.isDeleteCall]
  · rw [htr, List.count_append]
    have hz : (ids.map (fun i => CoordCall.callDeleteItem lid i)).count
        CoordCall.callRefresh = 0 := by
      rw [List.count_eq_zero]
      simp
    rw [hz]
    simp [List.count_singleton]
  · rw [htr, getLast_concat_eq]

/-- C7 witness: the batch theorem applied to ids [5, 12, 7] with every
delete succeeding. -/
theorem c7_batch_delete_witness :
    (∀ i ∈ [(5 : Int), 12, 7], ((fun _ => OpResult.ok true) i).isOk = true)
    ∧ (async_delete_items (fun _ => OpResult.ok true) 3 [5, 12, 7]).2
        = [CoordCall.callDeleteItem 3 5, CoordCall.callDeleteItem 3 12,
           CoordCall.callDeleteItem 3 7, CoordCall.callRefresh] := by
  have h : ∀ i ∈ [(5 : Int), 12, 7], ((fun _ => OpResult.ok true) i).isOk = true := by
    decide
  refine ⟨h, ?_⟩
  have := (c7_batch_delete (fun _ => OpResult.ok true) 3 [5, 12, 7] h).1
  rw [this]
  rfl

/-- C8: a successful update_item call with the prior state of the item returns
the prior item with only the provided fields replaced — the id is the
requested id, price and category_id always keep their prior values, an
is_checked-only update changes nothing else, and the Milk example of the spec
returns is_checked=True with every other field unchanged. -/
theorem c8_update_item_frame :
    (∀ (lid iid : Int) (a : UpdateArgs) (cur : ListonicItem) (ra : RAHeader)
        (body : String) (recs : List Bool),
        (update_item lid iid a (some cur) [.resp ⟨200, ra, body⟩] recs).result
          = .ok (updateItemReturn iid a (some cur)))
    ∧ (∀ (iid : Int) (a : UpdateArgs) (cur : ListonicItem),
        (updateItemReturn iid a (some cur)).id = iid
        ∧ (updateItemReturn iid a (some cur)).price = cur.price
        ∧ (updateItemReturn iid a (some cur)).category_id = cur.category_id)
    ∧ (∀ (iid : Int) (cur : ListonicItem) (b : Bool),
        updateItemReturn iid { is_checked := some b } (some cur)
          = { cur with id := iid, is_checked := b })
    ∧ (update_item 1 42 { is_checked := some true }
        (some { id := 42, name := "Milk", is_checked := false,
                quantity := some "2", unit := some "L" })
        [.resp ⟨200, .absent, ""⟩] []).result
        = .ok { id := 42, name := "Milk", is_checked := true,
                quantity := some "2", unit := some "L", price := none,
                description := none, category_id := none } := by
  refine ⟨fun lid iid a cur ra body recs => rfl, ?_, ?_, rfl⟩
  · intro iid a cur
    exact ⟨rfl, rfl, rfl⟩
  · intro iid cur b
    cases cur
    simp [updateItemReturn]

end Listonic
